import Mathlib

/-
Verification of tools/service-connection.js: a synchronous facade over an
asynchronous DDP connection.  The facade keeps at most one pending wait slot
(a fibers Future stored in self.currentFuture); the constructor, apply/call
and subscribeAndWait each create one slot, issue a transport request, and
block on the slot; the slot is resolved exactly once either by the
operation's own callback or by the single disconnect monitor.

The embedding below translates each JS function of the file into a pure Lean
function over an explicit facade state.  Callbacks are modelled as functions
returning a HandlerResult: the new facade state, the list of future
resolutions they performed (slot id paired with success value or failure
error), and the error they threw in their own (event-handler) context, if
any.  Wait-slot identity (the JS object identity of a Future, used by
comparisons such as self.currentFuture !== connectFuture) is modelled by a
natural-number slot id.
-/

namespace ServiceConnection

/-- A JS value as far as this facade observes one: apply results, the
undefined value produced by fut.return() with no argument. -/
inductive JSValue
  | undef
  | num (n : Nat)
  | str (s : String)
deriving DecidableEq, Repr

/-- A JS Error object: its message and the optional errorType tag used by
the disconnect monitor to recognise DDP.ForcedReconnectError. -/
structure JSError where
  errorType : Option String := none
  message : String
deriving DecidableEq, Repr

/-- A plain Error(msg) with no errorType tag. -/
def errMsg (s : String) : JSError := { message := s }

/-- The errorType tag checked at line 56 of service-connection.js. -/
def forcedTag : String := "DDP.ForcedReconnectError"

/-- The JS condition at line 56: error and error.errorType equals the
forced-reconnect tag. -/
def isForcedReconnect : Option JSError → Bool
  | some e => e.errorType == some forcedTag
  | none => false

/-- The mutable fields of a ServiceConnection instance: connection (whether
the transport handle is still owned, i.e. self.connection is non-null),
connected (last known transport state), and currentFuture (the id of the
pending wait slot, or none). -/
structure Facade where
  connection : Bool
  connected : Bool
  currentFuture : Option Nat
deriving DecidableEq, Repr

/-- The single resolution of a wait slot: fut.return(v) or fut.throw(e). -/
inductive Resolution
  | success (v : JSValue)
  | failure (e : JSError)
deriving DecidableEq, Repr

/-- The observable effect of running one callback: the facade state it
leaves behind, the slot resolutions it performed, and the error it threw in
its own context (an unhandled error in the event-handler context), if any. -/
structure HandlerResult where
  state : Facade
  resolved : List (Nat × Resolution)
  raised : Option JSError
deriving DecidableEq, Repr

/-- Lines 38 to 46: the onConnected success callback installed in the
connect options.  connectSlot is the id of the connectFuture the closure
captured.  Sets connected to true, then asserts a wait is pending and that
it is the connect wait, then clears currentFuture and resolves the slot
with success (undefined). -/
def onConnected (connectSlot : Nat) (st : Facade) : HandlerResult :=
  let st1 : Facade := { st with connected := true }
  match st1.currentFuture with
  | none =>
      { state := st1, resolved := [],
        raised := some (errMsg "nobody waiting for connection?") }
  | some f =>
      if f ≠ connectSlot then
        { state := st1, resolved := [],
          raised := some (errMsg "waiting for something that isn\x27t connection?") }
      else
        { state := { st1 with currentFuture := none },
          resolved := [(connectSlot, Resolution.success JSValue.undef)],
          raised := none }

/-- Lines 54 to 75: the disconnect handler.  connectResolved models the
value of connectFuture.isResolved() at the instant the event fires.  The
handler first sets connected to false (line 55, before any check), then:
a forced-reconnect error is fatal if the connect wait already resolved and
is otherwise ignored; any other event resolves the pending wait with
failure if one is pending (the given error, or a generic one when absent);
with no pending wait a supplied error is re-thrown and silence otherwise. -/
def disconnectHandler (connectResolved : Bool) (st : Facade)
    (error : Option JSError) : HandlerResult :=
  let st1 : Facade := { st with connected := false }
  if isForcedReconnect error then
    if connectResolved then
      { state := st1, resolved := [],
        raised := some (errMsg "disconnect before connect?") }
    else
      { state := st1, resolved := [], raised := none }
  else
    match st1.currentFuture with
    | some f =>
        { state := { st1 with currentFuture := none },
          resolved := [(f, Resolution.failure
            (error.getD (errMsg "DDP disconnected")))],
          raised := none }
    | none =>
        match error with
        | some e => { state := st1, resolved := [], raised := some e }
        | none => { state := st1, resolved := [], raised := none }

/-- Events the constructor performs, in source order, as a trace. -/
inductive CtorStep
  | extendOptions
  | transportConnect
  | createConnectSlot
  | installDisconnectHandler
  | waitConnect
deriving DecidableEq, BEq, Repr

/-- Lines 32 to 76 as a trace: extend the options (installing onConnected),
call DDP.connect (line 49), create connectFuture and store it in
currentFuture (line 53), install the disconnect handler (line 54), and
suspend on connectFuture.wait() (line 76). -/
def constructorSteps : List CtorStep :=
  [CtorStep.extendOptions, CtorStep.transportConnect,
   CtorStep.createConnectSlot, CtorStep.installDisconnectHandler,
   CtorStep.waitConnect]

/-- Position of a step in the constructor trace. -/
def ctorIndex (s : CtorStep) : Nat := constructorSteps.indexOf s

/-- Side effects on the transport that entries and close perform. -/
inductive Action
  | transportConnect
  | transportApply
  | transportSubscribe
  | transportClose
  | createSlot (id : Nat)
deriving DecidableEq, Repr

/-- What the synchronous prefix of apply or subscribeAndWait produces: a
fatal error thrown before anything else happened, or the updated state plus
the transport actions performed, in order. -/
structure EntryResult where
  fatal : Option JSError
  state : Facade
  actions : List Action
deriving DecidableEq, Repr

/-- Lines 87 to 92 and 105 of apply: if a wait is already pending, throw at
once (no slot created, no transport call).  Otherwise create a fresh slot,
store it in currentFuture, and issue the transport apply. -/
def applyEntry (st : Facade) (fresh : Nat) : EntryResult :=
  match st.currentFuture with
  | some _ =>
      { fatal := some (errMsg "Can\x27t wait on two things at once!"),
        state := st, actions := [] }
  | none =>
      { fatal := none, state := { st with currentFuture := some fresh },
        actions := [Action.createSlot fresh, Action.transportApply] }

/-- Lines 112 to 117 and 143 of subscribeAndWait: same gate as apply, then
a transport subscribe instead. -/
def subscribeEntry (st : Facade) (fresh : Nat) : EntryResult :=
  match st.currentFuture with
  | some _ =>
      { fatal := some (errMsg "Can\x27t wait on two things at once!"),
        state := st, actions := [] }
  | none =>
      { fatal := none, state := { st with currentFuture := some fresh },
        actions := [Action.createSlot fresh, Action.transportSubscribe] }

/-- Lines 95 to 104: the result callback apply appends to its arguments.
If no wait is pending it throws the fatal nobody-listening error; otherwise
it clears currentFuture (whatever slot it holds: the code performs no
identity check here) and resolves that slot via fut.resolver()(err, result),
which is a failure when err is present and a success with result
otherwise. -/
def applyResultCallback (st : Facade) (err : Option JSError)
    (result : JSValue) : HandlerResult :=
  match st.currentFuture with
  | none =>
      { state := st, resolved := [],
        raised := some (errMsg "nobody listening for result?") }
  | some f =>
      { state := { st with currentFuture := none },
        resolved := [(f, match err with
          | some e => Resolution.failure e
          | none => Resolution.success result)],
        raised := none }

/-- Lines 121 to 130: the onReady callback of subscribeAndWait.  Fatal if
no wait is pending, else clears currentFuture and resolves the slot with
success (fut.return() with no value). -/
def onReady (st : Facade) : HandlerResult :=
  match st.currentFuture with
  | none =>
      { state := st, resolved := [],
        raised := some (errMsg "nobody listening for subscribe result?") }
  | some f =>
      { state := { st with currentFuture := none },
        resolved := [(f, Resolution.success JSValue.undef)],
        raised := none }

/-- Lines 131 to 140: the onError callback of subscribeAndWait.  subSlot is
the id of the subFuture the closure captured.  When the current wait is
still this subscription, the callback clears currentFuture and resolves the
slot with failure e; the body then falls through (the if-block at lines 132
to 136 does not return) to the unconditional throw e at line 139, so the
error is also re-thrown in the handler context in that case, exactly as in
the late-error case. -/
def onError (subSlot : Nat) (st : Facade) (e : JSError) : HandlerResult :=
  if st.currentFuture = some subSlot then
    { state := { st with currentFuture := none },
      resolved := [(subSlot, Resolution.failure e)],
      raised := some e }
  else
    { state := st, resolved := [], raised := some e }

/-- Lines 148 to 154: close the transport handle if one is still owned and
null it out; otherwise do nothing.  Returns the new state and the transport
actions performed. -/
def close (st : Facade) : Facade × List Action :=
  if st.connection then
    ({ st with connection := false }, [Action.transportClose])
  else
    (st, [])

/-- An event a facade can undergo after construction: a caller starting the
synchronous prefix of apply or subscribeAndWait, a transport callback
firing, a disconnect event (with the connect-resolved flag and optional
error the environment supplies), or a close call. -/
inductive Event
  | startApply
  | startSubscribe
  | resultCallback (err : Option JSError) (v : JSValue)
  | ready
  | subError (subSlot : Nat) (e : JSError)
  | disconnect (connectResolved : Bool) (error : Option JSError)
  | closeOp
deriving DecidableEq, Repr

/-- Machine state for whole-run reasoning: the facade, a fresh-id counter
for new wait slots, and the ids of the slots created so far that no
callback has resolved yet (the outstanding wait slots). -/
structure MState where
  facade : Facade
  nextId : Nat
  outstanding : List Nat
deriving DecidableEq, Repr

/-- Remove from the outstanding list every slot a handler just resolved. -/
def removeResolved (outstanding : List Nat)
    (resolved : List (Nat × Resolution)) : List Nat :=
  outstanding.filter (fun i => !(resolved.any (fun p => p.1 == i)))

/-- Fold a callback result into the machine state. -/
def afterHandler (s : MState) (hr : HandlerResult) : MState :=
  { facade := hr.state, nextId := s.nextId,
    outstanding := removeResolved s.outstanding hr.resolved }

/-- Fold an entry result into the machine state: a fatal entry created no
slot; a successful entry created and registered slot s.nextId. -/
def afterEntry (s : MState) (er : EntryResult) : MState :=
  match er.fatal with
  | some _ => { s with facade := er.state }
  | none =>
      { facade := er.state, nextId := s.nextId + 1,
        outstanding := s.nextId :: s.outstanding }

/-- One machine step: dispatch the event to the function of the source it
corresponds to. -/
def step (s : MState) : Event → MState
  | Event.startApply => afterEntry s (applyEntry s.facade s.nextId)
  | Event.startSubscribe => afterEntry s (subscribeEntry s.facade s.nextId)
  | Event.resultCallback err v =>
      afterHandler s (applyResultCallback s.facade err v)
  | Event.ready => afterHandler s (onReady s.facade)
  | Event.subError subSlot e => afterHandler s (onError subSlot s.facade e)
  | Event.disconnect cr error =>
      afterHandler s (disconnectHandler cr s.facade error)
  | Event.closeOp => { s with facade := (close s.facade).1 }

/-- Run a sequence of events. -/
def run (s : MState) : List Event → MState
  | [] => s
  | e :: es => run (step s e) es

/-- The state right after the constructor returned successfully: transport
handle owned, connected, the connect slot (id 0) already resolved so no
wait is pending. -/
def initMState : MState :=
  { facade := { connection := true, connected := true, currentFuture := none },
    nextId := 1, outstanding := [] }

/-- The slot list a currentFuture field accounts for. -/
def slotListOf : Option Nat → List Nat
  | none => []
  | some f => [f]

/-- The bookkeeping invariant: the outstanding wait slots are exactly the
one held in currentFuture (so there is at most one). -/
def waitInv (s : MState) : Prop :=
  s.outstanding = slotListOf s.facade.currentFuture

theorem waitInv_init : waitInv initMState := rfl

theorem waitInv_step (s : MState) (e : Event) (h : waitInv s) :
    waitInv (step s e) := by
  unfold waitInv at h
  cases e with
  | startApply =>
      unfold step afterEntry applyEntry
      cases hc : s.facade.currentFuture with
      | none => simp [waitInv, h, hc, slotListOf]
      | some f => simp [waitInv, h, hc, slotListOf]
  | startSubscribe =>
      unfold step afterEntry subscribeEntry
      cases hc : s.facade.currentFuture with
      | none => simp [waitInv, h, hc, slotListOf]
      | some f => simp [waitInv, h, hc, slotListOf]
  | resultCallback err v =>
      unfold step afterHandler applyResultCallback
      cases hc : s.facade.currentFuture with
      | none => simp [waitInv, h, hc, slotListOf, removeResolved]
      | some f => simp [waitInv, h, hc, slotListOf, removeResolved]
  | ready =>
      unfold step afterHandler onReady
      cases hc : s.facade.currentFuture with
      | none => simp [waitInv, h, hc, slotListOf, removeResolved]
      | some f => simp [waitInv, h, hc, slotListOf, removeResolved]
  | subError subSlot e =>
      unfold step afterHandler onError
      by_cases hc : s.facade.currentFuture = some subSlot
      · simp [waitInv, h, hc, slotListOf, removeResolved]
      · simp [waitInv, hc, removeResolved, h]
  | disconnect cr error =>
      unfold step afterHandler disconnectHandler
      by_cases hf : isForcedReconnect error = true
      · cases cr <;> simp [waitInv, hf, h, removeResolved]
      · cases hc : s.facade.currentFuture with
        | none =>
            cases error <;>
              simp_all [waitInv, slotListOf, removeResolved]
        | some f =>
            simp_all [waitInv, slotListOf, removeResolved]
  | closeOp =>
      unfold step close
      by_cases hc : s.facade.connection = true <;>
        simp [waitInv, hc, h]

theorem waitInv_run (s : MState) (es : List Event) (h : waitInv s) :
    waitInv (run s es) := by
  induction es generalizing s with
  | nil => exact h
  | cons e es ih => exact ih (step s e) (waitInv_step s e h)

/-- The events that can fire while an apply call is blocked on its slot:
the appended result callback, or a disconnect event. -/
inductive ApplyEvent
  | result (err : Option JSError) (v : JSValue)
  | disconnect (connectResolved : Bool) (error : Option JSError)
deriving DecidableEq, Repr

/-- Dispatch an event fired while apply is blocked. -/
def applyStep (st : Facade) : ApplyEvent → HandlerResult
  | ApplyEvent.result err v => applyResultCallback st err v
  | ApplyEvent.disconnect cr error => disconnectHandler cr st error

/-- The first resolution a callback performed on the given slot, if any. -/
def firstResolutionOf (slot : Nat) : List (Nat × Resolution) → Option Resolution
  | [] => none
  | (i, r) :: rest =>
      if i = slot then some r else firstResolutionOf slot rest

/-- The blocking wait of line 107: process events until one resolves the
slot the caller is suspended on; return that resolution (none while the
caller is still blocked) and the facade state reached. -/
def waitLoop (slot : Nat) (st : Facade) : List ApplyEvent → Option Resolution × Facade
  | [] => (none, st)
  | e :: es =>
      let hr := applyStep st e
      match firstResolutionOf slot hr.resolved with
      | some r => (some r, hr.state)
      | none => waitLoop slot hr.state es

/-- How a slot resolution surfaces to the blocked caller: fut.wait()
returns the success value or throws the failure error. -/
def toOutcome : Resolution → Except JSError JSValue
  | Resolution.success v => Except.ok v
  | Resolution.failure e => Except.error e

/-- A whole apply call: run the entry, then block until some event resolves
the slot.  The first component is none while the call has not returned,
some (Except.ok v) when it returned v, and some (Except.error e) when it
raised e (also covering the fatal two-waits error thrown by the entry). -/
def applyRun (st : Facade) (fresh : Nat) (events : List ApplyEvent) :
    Option (Except JSError JSValue) × Facade :=
  let entry := applyEntry st fresh
  match entry.fatal with
  | some e => (some (Except.error e), entry.state)
  | none =>
      let p := waitLoop fresh entry.state events
      (p.1.map toOutcome, p.2)

/-- Lines 80 to 85: call shifts the method name off its argument list and
forwards everything to apply, so its blocking behaviour is apply itself. -/
def callRun (st : Facade) (fresh : Nat) (events : List ApplyEvent) :
    Option (Except JSError JSValue) × Facade :=
  applyRun st fresh events

/-- The fatal error both entries throw when a wait is already pending. -/
def busyError : JSError := errMsg "Can\x27t wait on two things at once!"

/-- Claim C1: for every sequence of facade operations at most one wait slot
is outstanding at any instant, and calling apply or subscribeAndWait while
a wait is already pending throws the fatal two-waits error before any
transport request is issued: no transport apply or subscribe action is
performed and the facade state, in particular the pending wait, is left
untouched. -/
theorem C1_single_wait_slot :
    (∀ es : List Event, (run initMState es).outstanding.length ≤ 1)
    ∧ (∀ (st : Facade) (f fresh : Nat), st.currentFuture = some f →
        applyEntry st fresh =
          { fatal := some busyError, state := st, actions := [] }
        ∧ subscribeEntry st fresh =
          { fatal := some busyError, state := st, actions := [] }) := by
  constructor
  · intro es
    have h := waitInv_run initMState es waitInv_init
    unfold waitInv at h
    rw [h]
    cases (run initMState es).facade.currentFuture <;> simp [slotListOf]
  · intro st f fresh hf
    constructor <;> simp [applyEntry, subscribeEntry, hf, busyError]

theorem C1_single_wait_slot_witness :
    (run initMState [Event.startApply, Event.startApply]).outstanding.length ≤ 1
    ∧ applyEntry
        { connection := true, connected := true, currentFuture := some 1 } 2 =
        { fatal := some busyError,
          state := { connection := true, connected := true,
                     currentFuture := some 1 },
          actions := [] } :=
  ⟨C1_single_wait_slot.1 [Event.startApply, Event.startApply],
   (C1_single_wait_slot.2
     { connection := true, connected := true, currentFuture := some 1 }
     1 2 rfl).1⟩

/-- Claim C2: a disconnect event carrying a non-forced-reconnect (possibly
absent) error while a wait is pending clears currentFuture and resolves
that wait with failure exactly once, with the supplied error when present
and a generic connection-lost error otherwise; a second identical event on
the resulting state resolves nothing. -/
theorem C2_disconnect_unblocks (cr : Bool) (st : Facade) (f : Nat)
    (error : Option JSError)
    (hf : st.currentFuture = some f)
    (hnf : isForcedReconnect error = false) :
    disconnectHandler cr st error =
      { state := { st with connected := false, currentFuture := none },
        resolved := [(f, Resolution.failure
          (error.getD (errMsg "DDP disconnected")))],
        raised := none }
    ∧ (disconnectHandler cr
        (disconnectHandler cr st error).state error).resolved = [] := by
  have h1 : disconnectHandler cr st error =
      { state := { st with connected := false, currentFuture := none },
        resolved := [(f, Resolution.failure
          (error.getD (errMsg "DDP disconnected")))],
        raised := none } := by
    unfold disconnectHandler
    simp [hnf, hf]
  refine ⟨h1, ?_⟩
  rw [h1]
  unfold disconnectHandler
  cases error with
  | none => simp [hnf]
  | some e => simp [hnf]

theorem C2_disconnect_unblocks_witness :
    disconnectHandler true
      { connection := true, connected := true, currentFuture := some 3 }
      (some (errMsg "boom")) =
      { state := { connection := true, connected := false,
                   currentFuture := none },
        resolved := [(3, Resolution.failure (errMsg "boom"))],
        raised := none } :=
  (C2_disconnect_unblocks true
    { connection := true, connected := true, currentFuture := some 3 }
    3 (some (errMsg "boom")) rfl rfl).1

/-- Claim C3: for every apply (and call, its alias): a transport that fires
the appended result callback with (null, V) makes the blocking call return
V; with (E, null) it makes it raise E; and apply never returns before some
event has resolved its wait slot: with no event it is still blocked, and a
returned outcome implies at least one event fired. -/
theorem C3_apply_result_semantics (st : Facade) (fresh : Nat)
    (h : st.currentFuture = none) (V : JSValue) (E : JSError) :
    (applyRun st fresh [ApplyEvent.result none V]).1 = some (Except.ok V)
    ∧ (applyRun st fresh [ApplyEvent.result (some E) JSValue.undef]).1 =
        some (Except.error E)
    ∧ (applyRun st fresh []).1 = none
    ∧ (∀ (es : List ApplyEvent) (out : Except JSError JSValue),
        (applyRun st fresh es).1 = some out → es ≠ [])
    ∧ (∀ es : List ApplyEvent, callRun st fresh es = applyRun st fresh es) := by
  refine ⟨?_, ?_, ?_, ?_, fun es => rfl⟩
  · simp [applyRun, applyEntry, h, waitLoop, applyStep, applyResultCallback,
      firstResolutionOf, toOutcome]
  · simp [applyRun, applyEntry, h, waitLoop, applyStep, applyResultCallback,
      firstResolutionOf, toOutcome]
  · simp [applyRun, applyEntry, h, waitLoop]
  · intro es out hout
    cases es with
    | nil =>
        rw [show (applyRun st fresh []).1 = none by
          simp [applyRun, applyEntry, h, waitLoop]] at hout
        exact absurd hout (by simp)
    | cons e es => simp

theorem C3_apply_result_semantics_witness :
    (applyRun { connection := true, connected := true, currentFuture := none }
      1 [ApplyEvent.result none (JSValue.num 7)]).1 =
      some (Except.ok (JSValue.num 7))
    ∧ (applyRun { connection := true, connected := true, currentFuture := none }
      1 [ApplyEvent.result (some (errMsg "remote failed")) JSValue.undef]).1 =
      some (Except.error (errMsg "remote failed")) :=
  ⟨(C3_apply_result_semantics
      { connection := true, connected := true, currentFuture := none }
      1 rfl (JSValue.num 7) (errMsg "remote failed")).1,
   (C3_apply_result_semantics
      { connection := true, connected := true, currentFuture := none }
      1 rfl (JSValue.num 7) (errMsg "remote failed")).2.1⟩

/-- A facade blocked on subscription slot 1, as subscribeAndWait leaves it
just before readiness. -/
def preReadyFacade : Facade :=
  { connection := true, connected := true, currentFuture := some 1 }

/-- A sample pre-readiness subscription error. -/
def subBoomError : JSError := errMsg "sub boom"

/-- Claim C4: evaluating onError at the pre-readiness input, where the
current wait is still this subscription slot.  The callback does clear
currentFuture and resolve the slot with failure E, but because the if-block
at lines 132 to 136 does not return, execution falls through to the
unconditional throw at line 139, so E is also re-thrown in the handler
context in this case, not only in the late case as the claim states. -/
theorem C4_onError_reraises_pre_readiness :
    onError 1 preReadyFacade subBoomError =
      { state := { connection := true, connected := true,
                   currentFuture := none },
        resolved := [(1, Resolution.failure subBoomError)],
        raised := some subBoomError } := by
  decide

/-- A facade with a wait pending while a forced-reconnect disconnect
arrives (e.g. the connect wait itself, slot 0). -/
def connectingFacade : Facade :=
  { connection := true, connected := true, currentFuture := some 0 }

/-- The forced-reconnect error the transport delivers on version
negotiation failure. -/
def forcedErr : JSError := { errorType := some forcedTag, message := "forced" }

/-- Claim C5 counterexample: a forced-reconnect disconnect arriving before
the connect wait resolved does NOT leave connected unchanged.  Line 55 sets
connected to false before the forced-reconnect check at line 56, so the
handler changes connected even in the branch it otherwise ignores. -/
theorem C5_counterexample_connected_cleared :
    (disconnectHandler false connectingFacade (some forcedErr)).state.connected
      ≠ connectingFacade.connected := by
  decide

/-- Claim C5 amended: a forced-reconnect disconnect arriving strictly
before the connect wait has resolved first marks connected false (like
every disconnect event) and is then ignored: no pending wait is resolved
and nothing is raised, leaving currentFuture untouched. -/
theorem C5_forced_reconnect_ignored (st : Facade) (e : JSError)
    (he : e.errorType = some forcedTag) :
    disconnectHandler false st (some e) =
      { state := { st with connected := false }, resolved := [],
        raised := none } := by
  unfold disconnectHandler
  simp [isForcedReconnect, he]

theorem C5_forced_reconnect_ignored_witness :
    disconnectHandler false connectingFacade (some forcedErr) =
      { state := { connection := true, connected := false,
                   currentFuture := some 0 },
        resolved := [], raised := none } :=
  C5_forced_reconnect_ignored connectingFacade forcedErr rfl

/-- Claim C6: a forced-reconnect disconnect arriving after the connect wait
has already resolved makes the handler throw the fatal
disconnect-before-connect invariant error; it is neither ignored nor
delivered as an ordinary failure to any pending wait (no slot is
resolved). -/
theorem C6_forced_reconnect_after_connect_fatal (st : Facade) (e : JSError)
    (he : e.errorType = some forcedTag) :
    disconnectHandler true st (some e) =
      { state := { st with connected := false }, resolved := [],
        raised := some (errMsg "disconnect before connect?") } := by
  unfold disconnectHandler
  simp [isForcedReconnect, he]

theorem C6_forced_reconnect_after_connect_fatal_witness :
    disconnectHandler true
      { connection := true, connected := true, currentFuture := none }
      (some forcedErr) =
      { state := { connection := true, connected := false,
                   currentFuture := none },
        resolved := [],
        raised := some (errMsg "disconnect before connect?") } :=
  C6_forced_reconnect_after_connect_fatal
    { connection := true, connected := true, currentFuture := none }
    forcedErr rfl

/-- Claim C7: a disconnect carrying a non-forced-reconnect error with no
wait pending re-throws that error unconditionally (never dropped); with no
wait pending and no error the handler does nothing beyond marking connected
false. -/
theorem C7_orphan_disconnect_error (cr : Bool) (st : Facade) (e : JSError)
    (hn : st.currentFuture = none)
    (hnf : e.errorType ≠ some forcedTag) :
    disconnectHandler cr st (some e) =
      { state := { st with connected := false }, resolved := [],
        raised := some e }
    ∧ disconnectHandler cr st none =
      { state := { st with connected := false }, resolved := [],
        raised := none } := by
  constructor
  · unfold disconnectHandler
    simp [isForcedReconnect, hnf, hn]
  · unfold disconnectHandler
    simp [isForcedReconnect, hn]

theorem C7_orphan_disconnect_error_witness :
    disconnectHandler true
      { connection := true, connected := true, currentFuture := none }
      (some (errMsg "lost")) =
      { state := { connection := true, connected := false,
                   currentFuture := none },
        resolved := [], raised := some (errMsg "lost") } :=
  (C7_orphan_disconnect_error true
    { connection := true, connected := true, currentFuture := none }
    (errMsg "lost") rfl (by decide)).1

/-- Claim C8 counterexample: in the constructor the wait slot is NOT
created before the transport connect call.  Line 49 issues DDP.connect and
only line 53 creates connectFuture and installs it as currentFuture, so in
the constructor trace the connect call strictly precedes the slot
creation. -/
theorem C8_counterexample_slot_after_connect :
    ¬ (ctorIndex CtorStep.createConnectSlot <
       ctorIndex CtorStep.transportConnect) := by
  decide

/-- Claim C8 amended: the constructor issues the transport connect call
first (with the success callback already installed in the options) and
creates the wait slot, installing it as the current pending wait,
immediately afterwards and before suspending on it; the success callback
asserts that the currently pending wait is exactly the connect wait,
resolving it with success when it is and throwing a fatal error when the
pending wait is a different slot. -/
theorem C8_connect_slot_order (st : Facade) (g connectSlot : Nat) :
    ctorIndex CtorStep.transportConnect <
      ctorIndex CtorStep.createConnectSlot
    ∧ ctorIndex CtorStep.createConnectSlot < ctorIndex CtorStep.waitConnect
    ∧ (st.currentFuture = some connectSlot →
        onConnected connectSlot st =
          { state := { st with connected := true, currentFuture := none },
            resolved := [(connectSlot, Resolution.success JSValue.undef)],
            raised := none })
    ∧ (st.currentFuture = some g → g ≠ connectSlot →
        onConnected connectSlot st =
          { state := { st with connected := true }, resolved := [],
            raised := some
              (errMsg "waiting for something that isn\x27t connection?") }) := by
  refine ⟨by decide, by decide, ?_, ?_⟩
  · intro hc
    unfold onConnected
    simp [hc]
  · intro hc hg
    unfold onConnected
    simp [hc, hg]

theorem C8_connect_slot_order_witness :
    onConnected 0
      { connection := true, connected := false, currentFuture := some 0 } =
      { state := { connection := true, connected := true,
                   currentFuture := none },
        resolved := [(0, Resolution.success JSValue.undef)],
        raised := none }
    ∧ onConnected 0
      { connection := true, connected := false, currentFuture := some 4 } =
      { state := { connection := true, connected := true,
                   currentFuture := some 4 },
        resolved := [],
        raised := some
          (errMsg "waiting for something that isn\x27t connection?") } :=
  ⟨(C8_connect_slot_order
      { connection := true, connected := false, currentFuture := some 0 }
      0 0).2.2.1 rfl,
   (C8_connect_slot_order
      { connection := true, connected := false, currentFuture := some 4 }
      4 0).2.2.2 rfl (by decide)⟩

/-- Claim C9: close is idempotent.  On a facade that still owns its
transport handle, close issues one transport close and nulls the handle
field; a second close does nothing and returns no actions; and close never
touches the pending wait (currentFuture is preserved for every facade). -/
theorem C9_close_idempotent (st : Facade) (h : st.connection = true) :
    close st = ({ st with connection := false }, [Action.transportClose])
    ∧ close (close st).1 = ((close st).1, [])
    ∧ (∀ t : Facade, (close t).1.currentFuture = t.currentFuture) := by
  refine ⟨?_, ?_, ?_⟩
  · unfold close
    simp [h]
  · unfold close
    simp [h]
  · intro t
    unfold close
    by_cases hc : t.connection = true <;> simp [hc]

theorem C9_close_idempotent_witness :
    close { connection := true, connected := true, currentFuture := some 2 } =
      ({ connection := false, connected := true, currentFuture := some 2 },
       [Action.transportClose])
    ∧ (close
        (close { connection := true, connected := true,
                 currentFuture := some 2 }).1).2 = [] := by
  have h := C9_close_idempotent
    { connection := true, connected := true, currentFuture := some 2 } rfl
  exact ⟨h.1, by rw [h.2.1]⟩

/-- Claim C10: the result callback installed by apply throws its fatal
nobody-listening error exactly when currentFuture is null at the moment it
fires; whenever any wait is pending it clears and resolves that wait
without checking that the pending slot is the one this apply created (f is
arbitrary below); only the connect success callback performs an identity
check on the pending slot, throwing when the pending wait is not the
connect wait. -/
theorem C10_result_callback_no_identity_check (st : Facade) (f : Nat)
    (err : Option JSError) (v : JSValue) (g cSlot : Nat) :
    (st.currentFuture = none →
        applyResultCallback st err v =
          { state := st, resolved := [],
            raised := some (errMsg "nobody listening for result?") })
    ∧ (st.currentFuture = some f →
        applyResultCallback st err v =
          { state := { st with currentFuture := none },
            resolved := [(f, match err with
              | some e => Resolution.failure e
              | none => Resolution.success v)],
            raised := none })
    ∧ (st.currentFuture = some g → g ≠ cSlot →
        (onConnected cSlot st).raised =
          some (errMsg "waiting for something that isn\x27t connection?")
        ∧ (onConnected cSlot st).resolved = []) := by
  refine ⟨?_, ?_, ?_⟩
  · intro hn
    unfold applyResultCallback
    simp [hn]
  · intro hf
    unfold applyResultCallback
    simp [hf]
  · intro hg hne
    unfold onConnected
    simp [hg, hne]

theorem C10_result_callback_no_identity_check_witness :
    applyResultCallback
      { connection := true, connected := true, currentFuture := none }
      none (JSValue.num 9) =
      { state := { connection := true, connected := true,
                   currentFuture := none },
        resolved := [],
        raised := some (errMsg "nobody listening for result?") }
    ∧ applyResultCallback
      { connection := true, connected := true, currentFuture := some 6 }
      none (JSValue.num 9) =
      { state := { connection := true, connected := true,
                   currentFuture := none },
        resolved := [(6, Resolution.success (JSValue.num 9))],
        raised := none } :=
  ⟨(C10_result_callback_no_identity_check
      { connection := true, connected := true, currentFuture := none }
      6 none (JSValue.num 9) 0 0).1 rfl,
   (C10_result_callback_no_identity_check
      { connection := true, connected := true, currentFuture := some 6 }
      6 none (JSValue.num 9) 0 0).2.1 rfl⟩

end ServiceConnection
